import Mathlib

/-!
Verification of the water-ATM dispense controller firmware
(`src/meter.py`, `src/meter_storage.py`, `src/main.py`, `src/meter_mqtts.py`).

The embedding is shallow: the serial bus and meter hardware are modelled by
explicit environments (a list of wire responses, or a list of per-poll
reading results `Option Int`), persistence by a map `Nat → Option Int`,
and the side effects of a dispense run by an explicit event trace.
Volumes are modelled as integers (`Int`): the wire protocol delivers
16-bit naturals, while requested amounts may in principle be any number.
-/

namespace UpdateAtm

/-! ## Transport codec (src/meter.py, lines 38-67) -/

/-- One shift round of the checksum loop: `crc >>= 1` then conditionally
`crc ^= 0xA001` (meter.py lines 43-47). -/
def crcShift (crc : Nat) : Nat :=
  if crc &&& 1 ≠ 0 then (crc >>> 1) ^^^ 0xA001 else crc >>> 1

/-- `n` iterations of `crcShift` (the `for _ in range(8)` loop). -/
def crcRounds : Nat → Nat → Nat
  | 0, crc => crc
  | n + 1, crc => crcRounds n (crcShift crc)

/-- Processing of one input byte: `crc ^= byte` then 8 shift rounds. -/
def crcStep (crc byte : Nat) : Nat := crcRounds 8 (crc ^^^ byte)

/-- `calculate_crc` (meter.py lines 38-48): 16-bit running value
initialised to 0xFFFF, folded over the data bytes. -/
def calculate_crc (data : List Nat) : Nat := data.foldl crcStep 0xFFFF

/-- `verify_crc` (meter.py lines 50-54): frames shorter than 3 bytes are
invalid; otherwise recompute the checksum over all but the trailing two
bytes and compare with `frame[-2] | (frame[-1] << 8)`. -/
def verify_crc (frame : List Nat) : Bool :=
  if frame.length < 3 then false
  else
    calculate_crc (frame.take (frame.length - 2)) ==
      ((frame.getD (frame.length - 2) 0) ||| ((frame.getD (frame.length - 1) 0) <<< 8))

/-- Append the checksum low-byte-first, as done at meter.py line 66
(`frame += bytearray([crc & 0xFF, (crc >> 8) & 0xFF])`). -/
def appendChecksum (data : List Nat) : List Nat :=
  data ++ [calculate_crc data &&& 0xFF, (calculate_crc data >>> 8) &&& 0xFF]

/-- `build_modbus_request` (meter.py lines 57-67): 6-byte body followed by
the 2-byte checksum low-byte-first. -/
def build_modbus_request (address function_code register_address register_count : Nat) :
    List Nat :=
  appendChecksum [address, function_code,
    (register_address >>> 8) &&& 0xFF, register_address &&& 0xFF,
    (register_count >>> 8) &&& 0xFF, register_count &&& 0xFF]

/-! ## Meter driver (src/meter.py, lines 89-114)

`read_cumulative_flow` is modelled over the wire response the UART
delivers for this request: `none` models a timeout (no/short read),
`some r` a received frame. -/

/-- `read_cumulative_flow` (meter.py lines 89-98): returns the 16-bit
value at bytes 3-4 when the response is present, 9 bytes long, passes the
checksum and carries the requested address; absent (`none`) otherwise. -/
def read_cumulative_flow (address : Nat) (response : Option (List Nat)) : Option Int :=
  match response with
  | none => none
  | some r =>
      if r.length = 9 ∧ verify_crc r then
        if r.getD 0 0 = address then
          some (((r.getD 3 0) <<< 8 ||| r.getD 4 0 : Nat) : Int)
        else none
      else none

/-- `get_valid_volume` (meter.py lines 108-114) over the sequence of
per-attempt read results: up to `retries` attempts, return the first
successful value, absent after all attempts fail. -/
def get_valid_volume : Nat → List (Option Int) → Option Int
  | 0, _ => none
  | _ + 1, [] => none
  | retries + 1, v :: rest =>
      match v with
      | some x => some x
      | none => get_valid_volume retries rest

/-! ## Persistent target store (src/meter_storage.py) -/

/-- `save_target_reading` (meter_storage.py lines 10-29): overwrites the
record for `address` with `value`. -/
def save_target_reading (store : Nat → Option Int) (address : Nat) (value : Int) :
    Nat → Option Int :=
  fun x => if x = address then some value else store x

/-- `load_target_reading` (meter_storage.py lines 32-59): the stored value,
or absent. -/
def load_target_reading (store : Nat → Option Int) (address : Nat) : Option Int :=
  store address

/-! ## Dispense controller (src/meter.py, lines 118-179)

The side effects of a run are recorded as an event trace. -/

/-- An observable side effect of `dispense_batch`. -/
inductive Event where
  | save (address : Nat) (value : Int)
  | valveOpen (address : Nat)
  | valveClose (address : Nat)
deriving DecidableEq, Repr

/-- Terminal outcome of `dispense_batch` (the returned dict). -/
inductive DispenseStatus where
  | completed (dispensed finalReading : Int)
  | failed (reason : String) (dispensed : Int)
deriving DecidableEq, Repr

/-- Replay one event against the store. -/
def applyEvent (store : Nat → Option Int) : Event → (Nat → Option Int)
  | Event.save a v => save_target_reading store a v
  | Event.valveOpen _ => store
  | Event.valveClose _ => store

/-- Replay an event trace against the store. -/
def runStore (store : Nat → Option Int) (evs : List Event) : Nat → Option Int :=
  evs.foldl applyEvent store

/-- The monitoring loop of `dispense_batch` (meter.py lines 147-179),
recursing over the stream of `read_cumulative_flow` results.  Returns
`none` when the stream is exhausted without reaching a terminal state
(the real loop would still be running). -/
def monitorLoop (address : Nat) (startVol targetVol lastVol : Int)
    (consecutiveErrors : Nat) :
    List (Option Int) → Option (DispenseStatus × List Event)
  | [] => none
  | none :: rest =>
      if consecutiveErrors + 1 ≥ 5 then
        some (DispenseStatus.failed "meter_timeout" (lastVol - startVol),
          [Event.valveClose address])
      else
        monitorLoop address startVol targetVol lastVol (consecutiveErrors + 1) rest
  | some cur :: rest =>
      if cur ≥ targetVol then
        some (DispenseStatus.completed (cur - startVol) cur,
          [Event.valveClose address, Event.save address cur])
      else
        monitorLoop address startVol targetVol cur 0 rest

/-- `dispense_batch` (meter.py lines 118-179).  `startReads` is the
environment for the initial `get_valid_volume` (5 attempts), and
`monitorReads` the stream of monitoring read results.  Returns the
terminal status together with the ordered trace of its side effects, or
`none` when `monitorReads` is exhausted while still monitoring. -/
def dispense_batch (address : Nat) (liters_to_dispense : Int)
    (startReads monitorReads : List (Option Int)) :
    Option (DispenseStatus × List Event) :=
  match get_valid_volume 5 startReads with
  | none => some (DispenseStatus.failed "initial_read_error" 0, [])
  | some startVol =>
      let targetVol := startVol + liters_to_dispense
      match monitorLoop address startVol targetVol startVol 0 monitorReads with
      | none => none
      | some (st, levs) =>
          some (st, Event.save address targetVol :: Event.valveOpen address :: levs)

/-! ## Recovery procedure (src/main.py, lines 66-113)

Per-address environment: the stored target, the live-read attempts for
`get_valid_volume`, and an externally injected exception (`fault`) standing
for any error raised while handling that address (e.g. an OSError from the
UART or the message client); the `try`/`except` of the Python loop catches
it.  A resumed dispense is recorded as a `dispenseCall` event carrying the
requested amount. -/

/-- Environment for the recovery of one address. -/
structure AddrEnv where
  stored : Option Int
  liveReads : List (Option Int)
  fault : Option String

/-- An observable effect of recovering one address. -/
inductive RecEvent where
  | save (address : Nat) (value : Int)
  | dispenseCall (address : Nat) (amount : Int)
deriving DecidableEq, Repr

/-- The body of the per-address recovery (main.py lines 76-110):
absent target and readable meter → save the live value;
absent target, unreadable meter → skip;
present target `t` and live value `c` with `t > c` → resume a dispense of
`t - c`; otherwise no action. -/
def recoverAddr (address : Nat) (env : AddrEnv) : List RecEvent :=
  match env.stored with
  | none =>
      match get_valid_volume 5 env.liveReads with
      | some c => [RecEvent.save address c]
      | none => []
  | some t =>
      match get_valid_volume 5 env.liveReads with
      | none => []
      | some c => if t > c then [RecEvent.dispenseCall address (t - c)] else []

/-- The per-address `try`/`except` wrapper (main.py lines 75, 112-113): an
exception while handling the address yields no effects and is swallowed. -/
def recoverAddrCaught (address : Nat) (env : AddrEnv) : List RecEvent :=
  match env.fault with
  | some _ => []
  | none => recoverAddr address env

/-- `check_for_interrupted_jobs` (main.py lines 66-113): every configured
address is processed in turn, each under its own caught handler. -/
def check_for_interrupted_jobs (addrs : List Nat) (envOf : Nat → AddrEnv) :
    List RecEvent :=
  (addrs.map (fun a => recoverAddrCaught a (envOf a))).flatten

/-! ## Inbound command handling (src/meter_mqtts.py)

Python strings are embedded as `List Char` so that the split/parse
functions compute by structural recursion. -/

/-- `str.split(sep)`: splits into (possibly empty) segments; always yields
at least one segment. -/
def splitOnChar (sep : Char) : List Char → List (List Char)
  | [] => [[]]
  | c :: rest =>
      match splitOnChar sep rest with
      | [] => if c = sep then [[], []] else [[c]]
      | seg :: segs =>
          if c = sep then [] :: seg :: segs else (c :: seg) :: segs

/-- Value of a digit string, most significant first. -/
def digitsVal (ds : List Char) : Int :=
  ds.foldl (fun a c => a * 10 + ((c.toNat - 48 : Nat) : Int)) 0

/-- `int(s, 10)` as used on device-ID segments, returning `none` where the
Python call raises ValueError: an optional sign followed by a nonempty run
of decimal digits parses, everything else is rejected.  (Whitespace
tolerance of the Python parser is not modelled; no claim depends on it.) -/
def parseDec (s : List Char) : Option Int :=
  match s with
  | [] => none
  | '-' :: rest =>
      if rest ≠ [] ∧ rest.all Char.isDigit then some (-(digitsVal rest)) else none
  | '+' :: rest =>
      if rest ≠ [] ∧ rest.all Char.isDigit then some (digitsVal rest) else none
  | cs => if cs.all Char.isDigit then some (digitsVal cs) else none

/-- `get_device_Hex` (meter_mqtts.py lines 16-22): requires a hyphen, then
parses the final hyphen-delimited segment as a decimal integer; `none` on
a parse failure. -/
def get_device_Hex (deviceID : List Char) : Option Int :=
  if deviceID.contains '-' then
    parseDec ((splitOnChar '-' deviceID).getLastD [])
  else none

/-- One queued command (the `cmd_data` dict of meter_mqtts.py lines 57-62). -/
structure Command where
  kind : String
  addr : Int
  litres : Int
  device_id : List Char
deriving DecidableEq, Repr

/-- The queue-feeding tail of `datacb` (meter_mqtts.py lines 50-65): the
command is appended exactly when `get_device_Hex` yields a truthy value —
`if not hex_address:` drops both `None` and `0`. -/
def datacb_enqueue (message : String) (litres : Int) (deviceID : List Char)
    (queue : List Command) : List Command :=
  match get_device_Hex deviceID with
  | none => queue
  | some a => if a = 0 then queue else queue ++ [⟨message, a, litres, deviceID⟩]

/-! ## Liveness signal and supervisor (src/main.py, lines 183-255)

Timed model of the writes to `last_alive_tick`.  The durations of the
phases of one `monitor_loop` iteration are parameters; the write points
are fixed by the source (lines 221, 248, 250).  Neither `dispense_batch`
nor `check_for_interrupted_jobs` mentions `last_alive_tick` (they act only
on the UART, the store and the message client), so the command-processing
and recovery phases contribute no write — the model reflects this by
containing no write inside those intervals. -/

/-- Durations (in seconds) of the phases of one `monitor_loop` iteration:
garbage collection and scheduled-restart check, command-queue processing
(where a blocking dispense runs), GSM check plus idle upload, and the idle
sleep. -/
structure IterEnv where
  gcTime : Nat
  otaTime : Nat
  queueTime : Nat
  gsmTime : Nat
  uploadTime : Nat
  sleepTime : Nat

/-- Absolute times of the three `last_alive_tick` writes of one iteration
starting at `t0` (main.py lines 221, 248, 250). -/
def iterTickWrites (t0 : Nat) (e : IterEnv) : List Nat :=
  [t0,
   t0 + e.gcTime + e.otaTime + e.queueTime + e.gsmTime + e.uploadTime,
   t0 + e.gcTime + e.otaTime + e.queueTime + e.gsmTime + e.uploadTime + e.sleepTime]

/-- Writes of the start of `monitor_loop` (main.py lines 209-221): a 10s
stabilisation sleep, then the recovery procedure (no writes), then the
first iteration's writes. -/
def monitorStartTickWrites (tBoot recoveryTime : Nat) (e : IterEnv) : List Nat :=
  iterTickWrites (tBoot + 10 + recoveryTime) e

/-- Value of `last_alive_tick` observed at time `t`, given its previous
value and the (chronological) write times so far. -/
def lastAliveAt (init : Nat) (writes : List Nat) (t : Nat) : Nat :=
  writes.foldl (fun acc w => if w ≤ t then w else acc) init

/-- The supervisor's feed decision (main.py line 196):
feed the watchdog iff `time() - last_alive_tick < 1200`. -/
def supervisorFeeds (now tick : Nat) : Bool := now - tick < 1200

/-! ## Lemmas about the monitoring loop -/

/-- With all monitoring reads successful, the loop stops at the first
reading that reaches the target, whatever the error counter and last
value. -/
lemma monitorLoop_find (address : Nat) (startVol targetVol : Int) (vs : List Int)
    (f : Int) (hf : vs.find? (fun v => v ≥ targetVol) = some f) :
    ∀ lastVol ce, monitorLoop address startVol targetVol lastVol ce (vs.map some) =
      some (DispenseStatus.completed (f - startVol) f,
        [Event.valveClose address, Event.save address f]) := by
  induction vs with
  | nil => simp at hf
  | cons v rest ih =>
    intro lastVol ce
    by_cases hv : v ≥ targetVol
    · rw [List.find?_cons_of_pos _ (by simpa using hv)] at hf
      injection hf with hf
      subst hf
      simp [monitorLoop, hv]
    · rw [List.find?_cons_of_neg _ (by simpa using hv)] at hf
      simp only [List.map_cons, monitorLoop, if_neg hv]
      exact ih hf v 0

/-- Whenever the monitoring loop reaches a terminal outcome, its event
trace is `[valveClose]` followed by a terminal save exactly on completion,
and the only failure reason it produces is `meter_timeout`. -/
lemma monitorLoop_events (address : Nat) (s t : Int) (reads : List (Option Int)) :
    ∀ lv ce st levs,
      monitorLoop address s t lv ce reads = some (st, levs) →
      (∀ d f, st = DispenseStatus.completed d f →
          d = f - s ∧ levs = [Event.valveClose address, Event.save address f]) ∧
      (∀ r d, st = DispenseStatus.failed r d →
          r = "meter_timeout" ∧ levs = [Event.valveClose address]) := by
  induction reads with
  | nil => intro lv ce st levs h; simp [monitorLoop] at h
  | cons r rest ih =>
    intro lv ce st levs h
    match r with
    | none =>
      rw [monitorLoop] at h
      split at h
      · injection h with h
        injection h with h1 h2
        subst h1; subst h2
        refine ⟨fun d f hdf => by simp at hdf, fun r d hrd => ?_⟩
        injection hrd with hr hd
        exact ⟨hr.symm, rfl⟩
      · exact ih _ _ _ _ h
    | some cur =>
      rw [monitorLoop] at h
      split at h
      · injection h with h
        injection h with h1 h2
        subst h1; subst h2
        refine ⟨fun d f hdf => ?_, fun r d hrd => by simp at hrd⟩
        injection hdf with hd hf
        subst hf
        exact ⟨hd.symm, rfl⟩
      · exact ih _ _ _ _ h

/-! ## Claim theorems -/

/-- C1: if the initial read yields `start`, every monitoring read
succeeds, and the first monitoring reading `f` with `f ≥ start + L`
exists, then `dispense_batch` terminates with
`Completed(dispensed = f - start, final_reading = f)` and `f ≥ start + L`.
(The explicit trace also shows the persisted target and the valve
actuation around the run.) -/
theorem dispense_completion_law (address : Nat) (L start f : Int)
    (startReads : List (Option Int)) (vs : List Int)
    (hstart : get_valid_volume 5 startReads = some start)
    (hf : vs.find? (fun v => v ≥ start + L) = some f) :
    dispense_batch address L startReads (vs.map some) =
      some (DispenseStatus.completed (f - start) f,
        [Event.save address (start + L), Event.valveOpen address,
         Event.valveClose address, Event.save address f]) ∧
    f ≥ start + L := by
  have hle : f ≥ start + L := by simpa using List.find?_some hf
  refine ⟨?_, hle⟩
  have hm := monitorLoop_find address start (start + L) vs f hf start 0
  simp [dispense_batch, hstart, hm]

/-- Witness for C1: start 10, request 2, readings 11 then 13 then 20; the
first reading at or past the target 12 is 13. -/
theorem dispense_completion_law_witness :
    dispense_batch 1 2 [some 10] ([11, 13, 20].map some) =
      some (DispenseStatus.completed (13 - 10) 13,
        [Event.save 1 (10 + 2), Event.valveOpen 1,
         Event.valveClose 1, Event.save 1 13]) ∧
    (13 : Int) ≥ 10 + 2 :=
  dispense_completion_law 1 2 10 13 [some 10] [11, 13, 20] rfl (by decide)

/-- C2: with a successful initial read, the trace of a terminated
`dispense_batch` starts with exactly one save of `start + L` followed by
the valve-open; a Completed outcome adds exactly one terminal save of the
final reading (so a subsequent load returns it), a Failed outcome adds no
save, leaving the earlier persisted target in place. -/
theorem dispense_persistence_discipline (address : Nat) (L start : Int)
    (startReads mons : List (Option Int)) (st : DispenseStatus) (evs : List Event)
    (hstart : get_valid_volume 5 startReads = some start)
    (h : dispense_batch address L startReads mons = some (st, evs)) :
    (∀ d g, st = DispenseStatus.completed d g →
        evs = [Event.save address (start + L), Event.valveOpen address,
               Event.valveClose address, Event.save address g] ∧
        ∀ store, load_target_reading (runStore store evs) address = some g) ∧
    (∀ r d, st = DispenseStatus.failed r d →
        r = "meter_timeout" ∧
        evs = [Event.save address (start + L), Event.valveOpen address,
               Event.valveClose address] ∧
        ∀ store, load_target_reading (runStore store evs) address =
          some (start + L)) := by
  cases hm : monitorLoop address start (start + L) start 0 mons with
  | none => simp [dispense_batch, hstart, hm] at h
  | some p =>
    obtain ⟨st', levs⟩ := p
    simp only [dispense_batch, hstart, hm, Option.some.injEq, Prod.mk.injEq] at h
    obtain ⟨h1, h2⟩ := h
    subst h1
    obtain ⟨hcomp, hfail⟩ := monitorLoop_events address start (start + L) mons
      start 0 st' levs hm
    constructor
    · intro d g hst
      obtain ⟨hd, hlevs⟩ := hcomp d g hst
      subst h2; subst hlevs
      refine ⟨rfl, fun store => ?_⟩
      simp [runStore, applyEvent, save_target_reading, load_target_reading]
    · intro r d hst
      obtain ⟨hr, hlevs⟩ := hfail r d hst
      subst h2; subst hlevs
      refine ⟨hr, rfl, fun store => ?_⟩
      simp [runStore, applyEvent, save_target_reading, load_target_reading]

/-- Witness for C2: a completed run (start 10, request 2, reading 13)
leaves 13 in the store for address 1. -/
theorem dispense_persistence_discipline_witness :
    load_target_reading
      (runStore (fun _ => none)
        [Event.save 1 (10 + 2), Event.valveOpen 1,
         Event.valveClose 1, Event.save 1 13]) 1 = some 13 :=
  ((dispense_persistence_discipline 1 2 10 [some 10] [some 13]
      (DispenseStatus.completed (13 - 10) 13)
      [Event.save 1 (10 + 2), Event.valveOpen 1, Event.valveClose 1, Event.save 1 13]
      rfl rfl).1 (13 - 10) 13 rfl).2 (fun _ => none)

/-- C3: per configured address, recovery saves the live volume when no
target is stored and the meter is readable, skips without saving when it
is not readable, resumes a dispense of `T - C` when a stored target `T`
exceeds the live reading `C`, does nothing when `T ≤ C` (or the live read
fails), and a caught exception on one address produces no effects while
the remaining addresses are still processed. -/
theorem recovery_procedure_behaviour :
    (∀ (a : Nat) (env : AddrEnv), env.fault = none → env.stored = none →
        get_valid_volume 5 env.liveReads = none →
        recoverAddrCaught a env = []) ∧
    (∀ (a : Nat) (env : AddrEnv) (c : Int), env.fault = none → env.stored = none →
        get_valid_volume 5 env.liveReads = some c →
        recoverAddrCaught a env = [RecEvent.save a c]) ∧
    (∀ (a : Nat) (env : AddrEnv) (t c : Int), env.fault = none →
        env.stored = some t → get_valid_volume 5 env.liveReads = some c → t > c →
        recoverAddrCaught a env = [RecEvent.dispenseCall a (t - c)]) ∧
    (∀ (a : Nat) (env : AddrEnv) (t c : Int), env.fault = none →
        env.stored = some t → get_valid_volume 5 env.liveReads = some c → t ≤ c →
        recoverAddrCaught a env = []) ∧
    (∀ (a : Nat) (env : AddrEnv) (t : Int), env.fault = none →
        env.stored = some t → get_valid_volume 5 env.liveReads = none →
        recoverAddrCaught a env = []) ∧
    (∀ (a : Nat) (env : AddrEnv) (m : String), env.fault = some m →
        recoverAddrCaught a env = []) ∧
    (∀ (a : Nat) (rest : List Nat) (envOf : Nat → AddrEnv),
        check_for_interrupted_jobs (a :: rest) envOf =
          recoverAddrCaught a (envOf a) ++ check_for_interrupted_jobs rest envOf) := by
  refine ⟨?_, ?_, ?_, ?_, ?_, ?_, ?_⟩
  · intro a env hf hs hr; simp [recoverAddrCaught, recoverAddr, hf, hs, hr]
  · intro a env c hf hs hr; simp [recoverAddrCaught, recoverAddr, hf, hs, hr]
  · intro a env t c hf hs hr hlt
    simp [recoverAddrCaught, recoverAddr, hf, hs, hr, hlt]
  · intro a env t c hf hs hr hle
    simp [recoverAddrCaught, recoverAddr, hf, hs, hr, not_lt_of_le hle]
  · intro a env t hf hs hr; simp [recoverAddrCaught, recoverAddr, hf, hs, hr]
  · intro a env m hf; simp [recoverAddrCaught, hf]
  · intro a rest envOf; simp [check_for_interrupted_jobs]

/-- Witness for C3: one concrete environment per case, including a caught
fault and a two-address run whose first address is still followed by the
second. -/
theorem recovery_procedure_behaviour_witness :
    recoverAddrCaught 1 ⟨none, [none, none, none, none, none], none⟩ = [] ∧
    recoverAddrCaught 1 ⟨none, [some 150, none], none⟩ = [RecEvent.save 1 150] ∧
    recoverAddrCaught 1 ⟨some 200, [some 150], none⟩ =
      [RecEvent.dispenseCall 1 (200 - 150)] ∧
    recoverAddrCaught 1 ⟨some 150, [some 150], none⟩ = [] ∧
    recoverAddrCaught 1 ⟨some 200, [none, none, none, none, none], none⟩ = [] ∧
    recoverAddrCaught 1 ⟨some 200, [some 150], some "uart fault"⟩ = [] ∧
    check_for_interrupted_jobs [1, 2] (fun _ => ⟨none, [some 150, none], none⟩) =
      recoverAddrCaught 1 ⟨none, [some 150, none], none⟩ ++
        check_for_interrupted_jobs [2] (fun _ => ⟨none, [some 150, none], none⟩) :=
  ⟨recovery_procedure_behaviour.1 1 _ rfl rfl rfl,
   recovery_procedure_behaviour.2.1 1 _ 150 rfl rfl rfl,
   recovery_procedure_behaviour.2.2.1 1 _ 200 150 rfl rfl rfl (by norm_num),
   recovery_procedure_behaviour.2.2.2.1 1 _ 150 150 rfl rfl rfl le_rfl,
   recovery_procedure_behaviour.2.2.2.2.1 1 _ 200 rfl rfl rfl,
   recovery_procedure_behaviour.2.2.2.2.2.1 1 _ "uart fault" rfl,
   recovery_procedure_behaviour.2.2.2.2.2.2 1 [2] _⟩

/-! ## Lemmas for the timeout path -/

/-- Five consecutive absent readings from a zero error counter close the
valve once and fail with `meter_timeout`. -/
lemma monitorLoop_five_none (address : Nat) (s t lv : Int) :
    monitorLoop address s t lv 0 (List.replicate 5 none) =
      some (DispenseStatus.failed "meter_timeout" (lv - s), [Event.valveClose address]) := by
  simp [List.replicate, monitorLoop]

/-- A prefix of successful readings all below the target is consumed,
resetting the error counter and updating the last known value. -/
lemma monitorLoop_progress_prefix (address : Nat) (s t : Int) (ss : List Int)
    (hlow : ∀ v ∈ ss, v < t) (tail : List (Option Int)) :
    ∀ lv, monitorLoop address s t lv 0 (ss.map some ++ tail) =
      monitorLoop address s t (ss.getLastD lv) 0 tail := by
  induction ss with
  | nil => intro lv; simp
  | cons v rest ih =>
    intro lv
    have hv : ¬ v ≥ t := not_le_of_lt (hlow v (List.mem_cons_self _ _))
    simp only [List.map_cons, List.cons_append, monitorLoop, if_neg hv,
      List.getLastD_cons]
    exact ih (fun x hx => hlow x (List.mem_cons_of_mem _ hx)) v

/-- C4: during monitoring each absent reading increments the
consecutive-error counter, a successful reading resets it to 0, and the
fifth consecutive absent reading closes the valve (exactly once in the
trace) and returns `Failed(meter_timeout)` with `dispensed` equal to the
last successful reading minus `start` (0 when no monitoring read ever
succeeded, since `ss.getLastD start = start` for an empty `ss`). -/
theorem meter_timeout_termination (address : Nat) (L start : Int)
    (startReads : List (Option Int)) (ss : List Int)
    (hstart : get_valid_volume 5 startReads = some start)
    (hlow : ∀ v ∈ ss, v < start + L) :
    dispense_batch address L startReads (ss.map some ++ List.replicate 5 none) =
      some (DispenseStatus.failed "meter_timeout" (ss.getLastD start - start),
        [Event.save address (start + L), Event.valveOpen address,
         Event.valveClose address]) ∧
    (∀ (lv : Int) (ce : Nat) rest, ce + 1 < 5 →
        monitorLoop address start (start + L) lv ce (none :: rest) =
          monitorLoop address start (start + L) lv (ce + 1) rest) ∧
    (∀ (lv v : Int) (ce : Nat) rest, v < start + L →
        monitorLoop address start (start + L) lv ce (some v :: rest) =
          monitorLoop address start (start + L) v 0 rest) ∧
    (∀ (lv : Int) rest,
        monitorLoop address start (start + L) lv 4 (none :: rest) =
          some (DispenseStatus.failed "meter_timeout" (lv - start),
            [Event.valveClose address])) := by
  refine ⟨?_, ?_, ?_, ?_⟩
  · have hp := monitorLoop_progress_prefix address start (start + L) ss hlow
      (List.replicate 5 none) start
    rw [monitorLoop_five_none] at hp
    simp only [dispense_batch, hstart, hp]
  · intro lv ce rest hce
    have h5 : ¬ ce + 1 ≥ 5 := by omega
    simp [monitorLoop, h5]
  · intro lv v ce rest hv
    simp [monitorLoop, not_le_of_lt hv]
  · intro lv rest
    simp [monitorLoop]

/-- Witness for C4: start 100, request 5, two low readings 101 and 103,
then five absent polls; the run fails with `meter_timeout` and
`dispensed = 103 - 100`. -/
theorem meter_timeout_termination_witness :
    dispense_batch 2 5 [some 100] ([101, 103].map some ++ List.replicate 5 none) =
      some (DispenseStatus.failed "meter_timeout"
          (([101, 103] : List Int).getLastD 100 - 100),
        [Event.save 2 (100 + 5), Event.valveOpen 2, Event.valveClose 2]) ∧
    monitorLoop 2 100 (100 + 5) 100 2 [none] = monitorLoop 2 100 (100 + 5) 100 (2 + 1) [] ∧
    monitorLoop 2 100 (100 + 5) 100 0 [some 101] = monitorLoop 2 100 (100 + 5) 101 0 [] ∧
    monitorLoop 2 100 (100 + 5) 103 4 [none] =
      some (DispenseStatus.failed "meter_timeout" ((103 : Int) - 100), [Event.valveClose 2]) :=
  ⟨(meter_timeout_termination 2 5 100 [some 100] [101, 103] rfl (by decide)).1,
   (meter_timeout_termination 2 5 100 [some 100] [101, 103] rfl (by decide)).2.1
     100 2 [] (by norm_num),
   (meter_timeout_termination 2 5 100 [some 100] [101, 103] rfl (by decide)).2.2.1
     100 101 0 [] (by norm_num),
   (meter_timeout_termination 2 5 100 [some 100] [101, 103] rfl (by decide)).2.2.2
     103 []⟩

/-- C10: for a requested amount `L ≤ 0` with a successful initial read,
the run still persists `start + L` and opens the valve before any
comparison, and the first successful monitoring read `cur ≥ start`
(monotone meter) immediately completes with `dispensed = cur - start`,
closing the valve; for `L < 0` the transient persisted target lies
strictly below that reading. -/
theorem nonpositive_request_behaviour (address : Nat) (L start cur : Int)
    (startReads mons : List (Option Int))
    (hstart : get_valid_volume 5 startReads = some start)
    (hL : L ≤ 0) (hmono : start ≤ cur) :
    dispense_batch address L startReads (some cur :: mons) =
      some (DispenseStatus.completed (cur - start) cur,
        [Event.save address (start + L), Event.valveOpen address,
         Event.valveClose address, Event.save address cur]) ∧
    (L < 0 → start + L < cur) := by
  have hge : cur ≥ start + L := by omega
  refine ⟨?_, fun h => by omega⟩
  simp [dispense_batch, hstart, monitorLoop, hge]

/-- Witness for C10: request -2 at reading 50; the valve is opened and
closed, 48 is transiently persisted, and the result is
`Completed(dispensed = 0)`. -/
theorem nonpositive_request_behaviour_witness :
    dispense_batch 3 (-2) [some 50] (some 50 :: []) =
      some (DispenseStatus.completed (50 - 50) 50,
        [Event.save 3 (50 + -2), Event.valveOpen 3,
         Event.valveClose 3, Event.save 3 50]) ∧
    ((-2 : Int) < 0 → 50 + -2 < (50 : Int)) :=
  nonpositive_request_behaviour 3 (-2) 50 50 [some 50] [] rfl (by norm_num) le_rfl

/-! ## Lemmas for the checksum round trip -/

/-- One shift round keeps the running value below 2^16. -/
lemma crcShift_lt {crc : Nat} (h : crc < 65536) : crcShift crc < 65536 := by
  have h16 : (65536 : Nat) = 2 ^ 16 := by norm_num
  have hs : crc >>> 1 < 65536 :=
    lt_of_le_of_lt (by rw [Nat.shiftRight_eq_div_pow]; exact Nat.div_le_self _ _) h
  unfold crcShift
  split
  · rw [h16] at hs ⊢
    exact Nat.xor_lt_two_pow hs (by norm_num)
  · exact hs

/-- The 8 shift rounds keep the running value below 2^16. -/
lemma crcRounds_lt (n : Nat) : ∀ {crc : Nat}, crc < 65536 → crcRounds n crc < 65536 := by
  induction n with
  | zero => intro crc h; exact h
  | succ n ih => intro crc h; exact ih (crcShift_lt h)

/-- Folding one byte keeps the running value below 2^16. -/
lemma crcStep_lt {crc byte : Nat} (h : crc < 65536) (hb : byte < 256) :
    crcStep crc byte < 65536 := by
  have h16 : (65536 : Nat) = 2 ^ 16 := by norm_num
  apply crcRounds_lt
  rw [h16]
  exact Nat.xor_lt_two_pow (h16 ▸ h) (lt_trans hb (by norm_num))

/-- The checksum of a byte sequence stays below 2^16 from any in-range
accumulator. -/
lemma foldl_crcStep_lt (data : List Nat) :
    ∀ acc, (∀ b ∈ data, b < 256) → acc < 65536 → data.foldl crcStep acc < 65536 := by
  induction data with
  | nil => intro acc _ hacc; simpa using hacc
  | cons b rest ih =>
    intro acc h hacc
    simp only [List.foldl_cons]
    exact ih _ (fun x hx => h x (List.mem_cons_of_mem _ hx))
      (crcStep_lt hacc (h b (List.mem_cons_self _ _)))

/-- Splitting a 16-bit value into its low and high bytes and recombining
them low-first reproduces the value. -/
lemma crc_split_recombine {c : Nat} (h : c < 65536) :
    (c &&& 255) ||| ((c >>> 8 &&& 255) <<< 8) = c := by
  have h8 : c >>> 8 = c / 256 := by
    rw [Nat.shiftRight_eq_div_pow]
  have hdiv : c / 256 < 256 := by omega
  have h1 : c &&& 255 = c % 256 := by
    have := Nat.and_pow_two_sub_one_eq_mod c 8
    norm_num at this
    exact this
  have h2 : c >>> 8 &&& 255 = c / 256 := by
    rw [h8]
    have := Nat.and_pow_two_sub_one_of_lt_two_pow (x := c / 256) (n := 8)
      (by norm_num [hdiv])
    norm_num at this
    exact this
  have hor := Nat.mul_add_lt_is_or (b := c % 256) (i := 8)
    (Nat.mod_lt _ (by norm_num)) (c / 256)
  rw [h1, h2, Nat.shiftLeft_eq, Nat.lor_comm, Nat.mul_comm, ← hor]
  omega

/-- A nonempty byte sequence with the codec checksum appended low-first
passes validation. -/
lemma crc_frame_valid (data : List Nat) (hne : data ≠ [])
    (hbytes : ∀ b ∈ data, b < 256) :
    verify_crc (appendChecksum data) = true := by
  have hn : 0 < data.length := List.length_pos.mpr hne
  have hc : calculate_crc data < 65536 := by
    unfold calculate_crc
    exact foldl_crcStep_lt data 0xFFFF hbytes (by norm_num)
  show verify_crc
      (data ++ [calculate_crc data &&& 0xFF, calculate_crc data >>> 8 &&& 0xFF]) = true
  have hlen :
      (data ++ [calculate_crc data &&& 0xFF, calculate_crc data >>> 8 &&& 0xFF]).length =
        data.length + 2 := by simp
  have hidx : data.length + 2 - 2 = data.length := by omega
  have htake :
      (data ++ [calculate_crc data &&& 0xFF, calculate_crc data >>> 8 &&& 0xFF]).take
        data.length = data := List.take_left' rfl
  have hget1 :
      (data ++ [calculate_crc data &&& 0xFF, calculate_crc data >>> 8 &&& 0xFF]).getD
        data.length 0 = calculate_crc data &&& 0xFF := by
    rw [List.getD_eq_getElem?_getD, List.getElem?_append_right (Nat.le_refl _)]
    simp
  have hget2 :
      (data ++ [calculate_crc data &&& 0xFF, calculate_crc data >>> 8 &&& 0xFF]).getD
        (data.length + 1) 0 = calculate_crc data >>> 8 &&& 0xFF := by
    rw [List.getD_eq_getElem?_getD,
      List.getElem?_append_right (Nat.le_succ_of_le (Nat.le_refl _))]
    simp
  rw [verify_crc, hlen, if_neg (by omega), hidx]
  have hidx1 : data.length + 2 - 1 = data.length + 1 := by omega
  rw [hidx1, htake, hget1, hget2, crc_split_recombine hc]
  simp

/-- C5 counterexample: the claim quantifies over every byte sequence, but
for the empty sequence the built frame is the bare 2-byte checksum, which
the verification routine rejects as shorter than 3 bytes. -/
theorem crc_roundtrip_empty_counterexample :
    verify_crc (appendChecksum []) = false := by decide

/-- C5 (amended to nonempty byte sequences): a frame formed by appending
the 16-bit checksum low-byte-first to a nonempty byte sequence validates
successfully; every frame shorter than 3 bytes is rejected; in particular
every frame built by `build_modbus_request` (whose two raw leading bytes
are in range) validates. -/
theorem crc_roundtrip (data : List Nat) (hne : data ≠ [])
    (hbytes : ∀ b ∈ data, b < 256) :
    verify_crc (appendChecksum data) = true ∧
    (∀ frame : List Nat, frame.length < 3 → verify_crc frame = false) ∧
    (∀ address function_code register_address register_count : Nat,
        address < 256 → function_code < 256 →
        verify_crc
          (build_modbus_request address function_code register_address register_count) =
          true) := by
  refine ⟨crc_frame_valid data hne hbytes, ?_, ?_⟩
  · intro frame hf
    simp [verify_crc, hf]
  · intro address function_code register_address register_count ha hf
    apply crc_frame_valid
    · simp
    · intro b hb
      have h255 : ∀ x : Nat, x &&& 255 < 256 :=
        fun x => Nat.lt_succ_of_le (Nat.and_le_right)
      simp only [List.mem_cons, List.not_mem_nil, or_false] at hb
      rcases hb with h | h | h | h | h | h <;> subst h
      · exact ha
      · exact hf
      · exact h255 _
      · exact h255 _
      · exact h255 _
      · exact h255 _

/-- Witness for C5: the 2-byte sequence `[4, 3]` round-trips, a 2-byte
frame is rejected, and the actual read request for address 4 validates. -/
theorem crc_roundtrip_witness :
    verify_crc (appendChecksum [4, 3]) = true ∧
    verify_crc [1, 2] = false ∧
    verify_crc (build_modbus_request 4 3 14 2) = true :=
  ⟨(crc_roundtrip [4, 3] (by decide) (by decide)).1,
   (crc_roundtrip [4, 3] (by decide) (by decide)).2.1 [1, 2] (by decide),
   (crc_roundtrip [4, 3] (by decide) (by decide)).2.2 4 3 14 2 (by decide) (by decide)⟩

/-- With exactly `retries` attempts available, `get_valid_volume` returns
the first successful attempt, if any. -/
lemma get_valid_volume_eq_findSome (reads : List (Option Int)) :
    ∀ retries, reads.length = retries →
      get_valid_volume retries reads = reads.findSome? id := by
  induction reads with
  | nil =>
    intro retries h
    cases retries with
    | zero => rfl
    | succ n => simp at h
  | cons v rest ih =>
    intro retries h
    cases retries with
    | zero => simp at h
    | succ n =>
      cases v with
      | some x => rfl
      | none =>
        simp only [get_valid_volume, List.findSome?_cons, id]
        exact ih n (by simpa using h)

/-- C6: `read_cumulative_flow` is a total function into `Option` — the
absent result (never an exception) covers a timed-out response, a response
of the wrong length, a checksum failure, and a response carrying a
different address; `get_valid_volume` makes up to `retries` attempts and
returns the first successful value, absent only when every attempt
failed. -/
theorem driver_absorbs_faults :
    (∀ address : Nat, read_cumulative_flow address none = none) ∧
    (∀ (address : Nat) (r : List Nat), r.length ≠ 9 →
        read_cumulative_flow address (some r) = none) ∧
    (∀ (address : Nat) (r : List Nat), verify_crc r = false →
        read_cumulative_flow address (some r) = none) ∧
    (∀ (address : Nat) (r : List Nat), r.getD 0 0 ≠ address →
        read_cumulative_flow address (some r) = none) ∧
    (∀ (retries : Nat) (reads : List (Option Int)), reads.length = retries →
        get_valid_volume retries reads = reads.findSome? id) ∧
    (∀ (retries : Nat) (reads : List (Option Int)), reads.length = retries →
        (get_valid_volume retries reads = none ↔ ∀ a ∈ reads, a = none)) := by
  refine ⟨fun _ => rfl, ?_, ?_, ?_, ?_, ?_⟩
  · intro address r h; simp [read_cumulative_flow, h]
  · intro address r h; simp [read_cumulative_flow, h]
  · intro address r h
    simp only [read_cumulative_flow]
    split <;> simp [h]
  · intro retries reads h
    exact get_valid_volume_eq_findSome reads retries h
  · intro retries reads h
    rw [get_valid_volume_eq_findSome reads retries h]
    simp [List.findSome?_eq_none_iff]

set_option maxRecDepth 10000 in
/-- Witness for C6: a timeout, a short response, a 9-byte response with a
bad checksum, a valid-looking response from the wrong address, and the
retry behaviour on concrete attempt lists. -/
theorem driver_absorbs_faults_witness :
    read_cumulative_flow 1 none = none ∧
    read_cumulative_flow 1 (some [1, 3]) = none ∧
    read_cumulative_flow 1 (some [1, 3, 2, 0, 5, 0, 0, 0, 0]) = none ∧
    read_cumulative_flow 1 (some [2, 3, 2, 0, 5, 0, 0, 0, 0]) = none ∧
    get_valid_volume 2 [none, some 7] = [none, some 7].findSome? id ∧
    (get_valid_volume 2 [none, none] = none ↔
      ∀ a ∈ ([none, none] : List (Option Int)), a = none) :=
  ⟨driver_absorbs_faults.1 1,
   driver_absorbs_faults.2.1 1 [1, 3] (by decide),
   driver_absorbs_faults.2.2.1 1 [1, 3, 2, 0, 5, 0, 0, 0, 0] (by decide),
   driver_absorbs_faults.2.2.2.1 1 [2, 3, 2, 0, 5, 0, 0, 0, 0] (by decide),
   driver_absorbs_faults.2.2.2.2.1 2 [none, some 7] (by decide),
   driver_absorbs_faults.2.2.2.2.2 2 [none, none] (by decide)⟩

set_option maxRecDepth 4000 in
/-- C8 counterexample: the device ID dev-0 has the decimal integer 0 as
its final hyphen-delimited segment, yet the command is dropped: the guard
`if not hex_address:` in `datacb` treats the parsed address 0 as falsy. -/
theorem command_zero_address_dropped_counterexample :
    get_device_Hex ['d', 'e', 'v', '-', '0'] = some 0 ∧
    datacb_enqueue "success" 20 ['d', 'e', 'v', '-', '0'] [] = [] := by
  constructor <;> rfl

/-- C8 (amended): an inbound command is enqueued, with the parsed integer
as its address, exactly when the deviceID contains a hyphen and its final
hyphen-delimited segment parses as a nonzero decimal integer; it is
dropped when the segment is non-numeric, when no hyphen is present, and
also when the parsed value is 0. -/
theorem command_address_filter (message : String) (litres : Int)
    (deviceID : List Char) (queue : List Command) :
    (∀ a : Int, get_device_Hex deviceID = some a → a ≠ 0 →
        datacb_enqueue message litres deviceID queue =
          queue ++ [⟨message, a, litres, deviceID⟩]) ∧
    (get_device_Hex deviceID = none →
        datacb_enqueue message litres deviceID queue = queue) ∧
    (get_device_Hex deviceID = some 0 →
        datacb_enqueue message litres deviceID queue = queue) ∧
    (deviceID.contains '-' = true →
        get_device_Hex deviceID = parseDec ((splitOnChar '-' deviceID).getLastD [])) ∧
    (deviceID.contains '-' = false → get_device_Hex deviceID = none) := by
  refine ⟨?_, ?_, ?_, ?_, ?_⟩
  · intro a ha h0; simp [datacb_enqueue, ha, h0]
  · intro h; simp [datacb_enqueue, h]
  · intro h; simp [datacb_enqueue, h]
  · intro h
    unfold get_device_Hex
    rw [if_pos h]
  · intro h
    unfold get_device_Hex
    rw [if_neg (by rw [h]; simp)]

/-- Witness for C8: dev-6 is enqueued with address 6, dev (no hyphen) and
dev-0 are dropped, and `get_device_Hex` agrees with parsing the final
segment. -/
theorem command_address_filter_witness :
    datacb_enqueue "success" 20 ['d', 'e', 'v', '-', '6'] [] =
      [] ++ [⟨"success", 6, 20, ['d', 'e', 'v', '-', '6']⟩] ∧
    datacb_enqueue "success" 20 ['d', 'e', 'v'] [] = [] ∧
    datacb_enqueue "success" 20 ['d', 'e', 'v', '-', '0'] [] = [] ∧
    get_device_Hex ['d', 'e', 'v', '-', '6'] =
      parseDec ((splitOnChar '-' ['d', 'e', 'v', '-', '6']).getLastD []) ∧
    get_device_Hex ['d', 'e', 'v'] = none :=
  ⟨(command_address_filter "success" 20 ['d', 'e', 'v', '-', '6'] []).1 6 rfl
      (by norm_num),
   (command_address_filter "success" 20 ['d', 'e', 'v'] []).2.1 rfl,
   (command_address_filter "success" 20 ['d', 'e', 'v', '-', '0'] []).2.2.1 rfl,
   (command_address_filter "success" 20 ['d', 'e', 'v', '-', '6'] []).2.2.2.1 rfl,
   (command_address_filter "success" 20 ['d', 'e', 'v'] []).2.2.2.2 rfl⟩

/-- C9: the three `last_alive_tick` writes of a `monitor_loop` iteration
all lie outside the open command-processing interval (a blocking dispense
writes nothing); the tick observed anywhere between the iteration's first
write and its second is the iteration start; hence once a dispense (or
the boot-time recovery, which also writes nothing) has kept the thread
busy for 1200 seconds the supervisor withholds the watchdog feed, leaving
the hardware to reset the device. -/
theorem liveness_signal_frame :
    (∀ (t0 : Nat) (e : IterEnv) (w : Nat), w ∈ iterTickWrites t0 e →
        ¬(t0 + e.gcTime + e.otaTime < w ∧
          w < t0 + e.gcTime + e.otaTime + e.queueTime)) ∧
    (∀ (t0 : Nat) (e : IterEnv) (init t : Nat),
        t0 ≤ t →
        t < t0 + e.gcTime + e.otaTime + e.queueTime + e.gsmTime + e.uploadTime →
        lastAliveAt init (iterTickWrites t0 e) t = t0) ∧
    (∀ (t0 : Nat) (e : IterEnv) (init t : Nat),
        t0 ≤ t →
        t < t0 + e.gcTime + e.otaTime + e.queueTime + e.gsmTime + e.uploadTime →
        1200 ≤ t - t0 →
        supervisorFeeds t (lastAliveAt init (iterTickWrites t0 e) t) = false) ∧
    (∀ (tBoot r : Nat) (e : IterEnv) (t : Nat),
        t < tBoot + 10 + r →
        lastAliveAt tBoot (monitorStartTickWrites tBoot r e) t = tBoot) ∧
    (∀ (tBoot r : Nat) (e : IterEnv) (t : Nat),
        t < tBoot + 10 + r → 1200 ≤ t - tBoot →
        supervisorFeeds t (lastAliveAt tBoot (monitorStartTickWrites tBoot r e) t) =
          false) := by
  have hlast : ∀ (init t w1 w2 w3 : Nat),
      lastAliveAt init [w1, w2, w3] t =
        if w3 ≤ t then w3 else if w2 ≤ t then w2 else if w1 ≤ t then w1 else init := by
    intro init t w1 w2 w3
    rfl
  refine ⟨?_, ?_, ?_, ?_, ?_⟩
  · intro t0 e w hw
    simp only [iterTickWrites, List.mem_cons, List.not_mem_nil, or_false] at hw
    rcases hw with h | h | h <;> subst h <;> omega
  · intro t0 e init t h1 h2
    rw [iterTickWrites, hlast, if_neg (by omega), if_neg (by omega), if_pos h1]
  · intro t0 e init t h1 h2 h3
    rw [iterTickWrites, hlast, if_neg (by omega), if_neg (by omega), if_pos h1]
    simp only [supervisorFeeds, decide_eq_false_iff_not]
    omega
  · intro tBoot r e t h1
    rw [monitorStartTickWrites, iterTickWrites, hlast,
      if_neg (by omega), if_neg (by omega), if_neg (by omega)]
  · intro tBoot r e t h1 h2
    rw [monitorStartTickWrites, iterTickWrites, hlast,
      if_neg (by omega), if_neg (by omega), if_neg (by omega)]
    simp only [supervisorFeeds, decide_eq_false_iff_not]
    omega

/-- Witness for C9: with a 2000-second command-processing phase starting
at time 102, the tick observed at time 1500 is still the iteration start
100 and the supervisor withholds the feed; likewise during a 2000-second
recovery after boot at time 0, observed at time 1300. -/
theorem liveness_signal_frame_witness :
    ¬(100 + 1 + 1 < 100 ∧ (100 : Nat) < 100 + 1 + 1 + 2000) ∧
    lastAliveAt 7 (iterTickWrites 100 ⟨1, 1, 2000, 1, 1, 30⟩) 1500 = 100 ∧
    supervisorFeeds 1500 (lastAliveAt 7 (iterTickWrites 100 ⟨1, 1, 2000, 1, 1, 30⟩) 1500) =
      false ∧
    lastAliveAt 0 (monitorStartTickWrites 0 2000 ⟨1, 1, 2000, 1, 1, 30⟩) 1300 = 0 ∧
    supervisorFeeds 1300
      (lastAliveAt 0 (monitorStartTickWrites 0 2000 ⟨1, 1, 2000, 1, 1, 30⟩) 1300) =
      false :=
  ⟨liveness_signal_frame.1 100 ⟨1, 1, 2000, 1, 1, 30⟩ 100 (by decide),
   liveness_signal_frame.2.1 100 ⟨1, 1, 2000, 1, 1, 30⟩ 7 1500 (by norm_num) (by norm_num),
   liveness_signal_frame.2.2.1 100 ⟨1, 1, 2000, 1, 1, 30⟩ 7 1500 (by norm_num)
     (by norm_num) (by norm_num),
   liveness_signal_frame.2.2.2.1 0 2000 ⟨1, 1, 2000, 1, 1, 30⟩ 1300 (by norm_num),
   liveness_signal_frame.2.2.2.2 0 2000 ⟨1, 1, 2000, 1, 1, 30⟩ 1300 (by norm_num)
     (by norm_num)⟩

end UpdateAtm
